import Mathlib

/-!
Verification development for a LINE-bot image relay service (`app.go`).

The service receives chat events, enqueues each as an asynchronous task
(`handleCallback`), and processes each task (`handleTask`): text messages are
echoed, image messages are fetched, decoded (`decodeImage`), converted to
16-bit grayscale (`convertToGray`), thumbnailed (`resize.Thumbnail`), uploaded
twice (`writeImage`), and answered with either an image message holding two
public URLs or a fixed failure text; any other message type gets a fixed
unsupported-type text.

External effects (message-content fetch, JSON marshalling, the storage client,
the stream write/close, the Lanczos resampling kernel) are modelled as
explicit outcome parameters; the control flow, the string/URL composition, the
grayscale pixel arithmetic (Go's `color.Gray16Model`) and the thumbnail
dimension policy are modelled faithfully from the code.
-/

/-- A Go `error` value (only its presence/identity matters here). -/
abbrev GoError := String

/-! ## Colors and pixel grids (Go `image` / `image/color`) -/

/-- A Go `color.Color`: either a `color.Gray16` value, or any other color
exposed through its `RGBA()` method (alpha-premultiplied, 16-bit range),
as the Go `color` package does. -/
inductive Color where
  | generic (r g b a : Nat)
  | gray16 (y : Nat)
deriving DecidableEq

/-- The `RGBA()` method of Go's `color.Color`: a `Gray16` value reports
`(y, y, y, 0xffff)`; a generic color reports its stored channels reduced to
the 16-bit range `uint32` values Go keeps them in. -/
def Color.rgba : Color → Nat × Nat × Nat × Nat
  | .generic r g b a => (r % 65536, g % 65536, b % 65536, a % 65536)
  | .gray16 y => (y % 65536, y % 65536, y % 65536, 65535)

/-- Go's `color.Gray16Model.Convert` (`gray16Model` in `image/color/color.go`):
a `Gray16` input is returned unchanged; otherwise the luminance
`(19595*r + 38470*g + 7471*b + 1<<15) >> 16` of the `RGBA()` channels is
computed and truncated to `uint16`. -/
def gray16ModelConvert (c : Color) : Color :=
  match c with
  | .gray16 _ => c
  | .generic _ _ _ _ =>
    match c.rgba with
    | (r, g, b, _) =>
      Color.gray16 ((19595 * r + 38470 * g + 7471 * b + 32768) / 65536 % 65536)

/-- The type assertion `gray, _ := c.(color.Gray16)` in `convertToGray`:
on a `Gray16` value it yields its `Y` channel; on any other dynamic type the
assertion fails silently and `gray` is the zero `color.Gray16{}` (black). -/
def Color.asGray16 : Color → Nat
  | .gray16 y => y
  | .generic _ _ _ _ => 0

/-- A Go `image.Rectangle` given by its `Min` and `Max` points. -/
structure Rect where
  minX : Int
  minY : Int
  maxX : Int
  maxY : Int
deriving DecidableEq

/-- Membership of a point in a rectangle (Go's `Point.In`): `Min ≤ p < Max`
componentwise. -/
def Rect.inside (r : Rect) (x y : Int) : Prop :=
  r.minX ≤ x ∧ x < r.maxX ∧ r.minY ≤ y ∧ y < r.maxY

instance (r : Rect) (x y : Int) : Decidable (r.inside x y) := by
  unfold Rect.inside; infer_instance

/-- Go's `Rectangle.Dx`. -/
def Rect.dx (r : Rect) : Int := r.maxX - r.minX

/-- Go's `Rectangle.Dy`. -/
def Rect.dy (r : Rect) : Int := r.maxY - r.minY

/-- A Go `image.Image`: bounds plus the total pixel function `At` (Go images
return their model's zero color outside the bounds, so `pix` is total). -/
@[ext]
structure PixelGrid where
  bounds : Rect
  pix : Int → Int → Color

/-- `convertToGray` from `app.go`: allocate `image.NewGray16(bounds)` and, for
every coordinate inside the source bounds, store the `Gray16Model` conversion
of the source pixel through the (silently defaulting) `Gray16` type assertion.
The imperative row/column loop is modelled extensionally: outside the bounds
the fresh `Gray16` grid reads as zero (black), exactly as `Gray16.At` does. -/
def convertToGray (img : PixelGrid) : PixelGrid :=
  { bounds := img.bounds
    pix := fun x y =>
      if img.bounds.inside x y then
        Color.gray16 ((gray16ModelConvert (img.pix x y)).asGray16)
      else
        Color.gray16 0 }

/-! ## Thumbnail generation (`resize.Thumbnail 300 300 img resize.Lanczos3`) -/

/-- Modelled from the spec: the thumbnail generator is the external library
`resize.Thumbnail` (github.com/nfnt/resize), not part of `src`; the spec
describes it as "fit within the box while preserving aspect ratio" and leaves
the resampling kernel to the library. This is its first clamp step: a width
above `maxW` is clamped to `maxW` with the height scaled proportionally
(`uint` floor division, at least 1). -/
def thumbStepW (maxW w h : Nat) : Nat × Nat :=
  if w > maxW then (maxW, if h * maxW / w < 1 then 1 else h * maxW / w)
  else (w, h)

/-- Modelled from the spec: second clamp step of `resize.Thumbnail` — a height
still above `maxH` is clamped to `maxH` with the width rescaled by `uint`
floor division (at least 1). -/
def thumbStepH (maxH : Nat) (p : Nat × Nat) : Nat × Nat :=
  if p.2 > maxH then (if p.1 * maxH / p.2 < 1 then 1 else p.1 * maxH / p.2, maxH)
  else p

/-- Modelled from the spec: the full dimension policy of `resize.Thumbnail` —
identity when the image already fits the box, else the width clamp followed by
the height clamp. -/
def thumbnailDims (maxW maxH w h : Nat) : Nat × Nat :=
  if maxW ≥ w ∧ maxH ≥ h then (w, h)
  else thumbStepH maxH (thumbStepW maxW w h)

/-- Modelled from the spec: `resize.Thumbnail` at the pixel-grid level. The
resampled pixel content (Lanczos, 3-lobe) is delegated to the library and out
of scope per the spec (a non-goal: "no custom resize/resampling algorithm"),
so it is an explicit oracle `resample`; the returned grid's dimensions follow
`thumbnailDims`, and an image already within the box is returned unchanged. -/
def thumbnailGrid (resample : Nat → Nat → PixelGrid → Int → Int → Color)
    (maxW maxH : Nat) (img : PixelGrid) : PixelGrid :=
  let w := img.bounds.dx.toNat
  let h := img.bounds.dy.toNat
  if maxW ≥ w ∧ maxH ≥ h then img
  else
    let p := thumbnailDims maxW maxH w h
    { bounds := { minX := 0, minY := 0, maxX := (p.1 : Int), maxY := (p.2 : Int) }
      pix := resample p.1 p.2 img }

/-! ## Decoding (`decodeImage`) -/

/-- `linebot.MessageContentResponse`: a declared MIME content type plus the
raw byte stream. -/
structure MessageContentResponse where
  contentType : String
  content : List Nat

/-- `decodeImage` from `app.go`: dispatch on the declared content type to
`jpeg.Decode` or `png.Decode` (external codecs, passed as oracles returning
Go's `(image, error)` pair); any other content type falls through and returns
the zero values `(nil, nil)`. -/
def decodeImage (jpegDecode pngDecode : List Nat → Option PixelGrid × Option GoError)
    (content : MessageContentResponse) : Option PixelGrid × Option GoError :=
  if content.contentType = "image/jpeg" then jpegDecode content.content
  else if content.contentType = "image/png" then pngDecode content.content
  else (none, none)

/-! ## Task handling (`handleTask`) -/

/-- The dynamic type of `e.Message` in the `handleTask` type switch:
`*linebot.TextMessage`, `*linebot.ImageMessage` (carrying the message ID used
to fetch the content), or any other message type (the `default` arm). -/
inductive InMessage where
  | text (s : String)
  | image (mid : String)
  | other
deriving DecidableEq

/-- A `linebot.Event` as `handleTask` uses it: reply token plus message. -/
structure Event where
  replyToken : String
  message : InMessage

/-- The `responseMessage` built by `handleTask`: `linebot.NewTextMessage` or
`linebot.NewImageMessage` (original URL, preview URL). -/
inductive ReplyMessage where
  | textMsg (s : String)
  | imageMsg (orig preview : String)
deriving DecidableEq

/-- Observable outcome of processing one event: a reply message handed to
`bot.ReplyMessage`, an early `return` with no reply (logged error), or a nil
dereference (`img.Bounds()` on a nil image, possible when `decodeImage`
returns `(nil, nil)` for an unsupported content type). -/
inductive TaskResult where
  | reply (m : ReplyMessage)
  | noReply
  | crash
deriving DecidableEq

/-- `const bucketURLBase` from `app.go`. -/
def bucketURLBase : String := "https://storage.googleapis.com/"

/-- The effect environment of one `handleTask` invocation: the configured
bucket name, `bot.GetMessageContent(id).Do()`, the two codecs, the Lanczos
resampler, and the outcome of each `writeImage(c, img, path)` call. -/
structure TaskEnv where
  bucketName : String
  getContent : String → Except GoError MessageContentResponse
  jpegDecode : List Nat → Option PixelGrid × Option GoError
  pngDecode : List Nat → Option PixelGrid × Option GoError
  resample : Nat → Nat → PixelGrid → Int → Int → Color
  writeImage : PixelGrid → String → Option GoError

/-- The per-event core of `handleTask` from `app.go` (after the transport
steps — form field, base64, JSON unmarshal, bot construction — have produced
a parsed event; each of those aborts with `noReply` on failure and carries no
event to dispatch). Text echoes; an image is fetched, decoded, grayscaled,
thumbnailed and uploaded twice, replying with the two public URLs when both
uploads return nil and the fixed failure text otherwise; fetch errors and
decode errors `return` early with no reply; any other message type gets the
fixed unsupported-type text. -/
def handleTask (env : TaskEnv) (e : Event) : TaskResult :=
  match e.message with
  | InMessage.text s => TaskResult.reply (ReplyMessage.textMsg s)
  | InMessage.image mid =>
    match env.getContent mid with
    | Except.error _ => TaskResult.noReply
    | Except.ok content =>
      match decodeImage env.jpegDecode env.pngDecode content with
      | (_, some _) => TaskResult.noReply
      | (none, none) => TaskResult.crash
      | (some img, none) =>
        let gray := convertToGray img
        let thumbnail := thumbnailGrid env.resample 300 300 gray
        let origPath := "images/" ++ mid ++ ".jpg"
        let thumbnailPath := "thumbnails/" ++ mid ++ ".jpg"
        let writeError1 := env.writeImage gray origPath
        let writeError2 := env.writeImage thumbnail thumbnailPath
        if writeError1 = none ∧ writeError2 = none then
          TaskResult.reply (ReplyMessage.imageMsg
            (bucketURLBase ++ env.bucketName ++ "/" ++ origPath)
            (bucketURLBase ++ env.bucketName ++ "/" ++ thumbnailPath))
        else
          TaskResult.reply (ReplyMessage.textMsg "失敗しました。。。")
  | InMessage.other => TaskResult.reply (ReplyMessage.textMsg "未対応です。。。")

/-! ## Storage upload (`writeImage`) -/

/-- The outcomes of the four effectful steps inside one `writeImage` call:
`storage.NewClient`, `jpeg.Encode`, `writer.Write`, and the deferred
`writer.Close` (`none` = the Go call returned a nil error). -/
structure StorageOutcome where
  clientErr : Option GoError
  encodeErr : Option GoError
  writeErr : Option GoError
  closeErr : Option GoError

/-- `writeImage` from `app.go`: return the client-construction error, else the
JPEG-encode error, else the stream-write error, else nil. The deferred
`writer.Close()` runs on every exit path but its return value is discarded,
so `closeErr` never influences the result. -/
def writeImage (st : StorageOutcome) : Option GoError :=
  match st.clientErr with
  | some e => some e
  | none =>
    match st.encodeErr with
    | some e => some e
    | none =>
      match st.writeErr with
      | some e => some e
      | none => none

/-! ## Webhook fan-out (`handleCallback`) -/

/-- A `taskqueue.Task` built by `taskqueue.NewPOSTTask("/task", {"data": d})`,
where `d` is the base64 of the marshalled event. -/
structure QueueTask where
  path : String
  data : String

/-- `handleCallback` from `app.go`: marshal each event in order; on the first
`json.Marshal` error the handler returns before ever reaching
`taskqueue.AddMulti`, so no task at all is enqueued (`none`); otherwise all
tasks are enqueued together at the end (`some` list, one task per event).
`b64` is the external `base64.StdEncoding.EncodeToString`. -/
def handleCallback (marshal : Event → Except GoError (List Nat))
    (b64 : List Nat → String) : List Event → Option (List QueueTask)
  | [] => some []
  | e :: rest =>
    match marshal e with
    | Except.error _ => none
    | Except.ok j =>
      (handleCallback marshal b64 rest).map
        (fun ts => { path := "/task", data := b64 j } :: ts)

/-! ## Helper lemmas -/

/-- `Gray16Model.Convert` always produces a `Gray16` value, so the `Gray16`
type assertion on its result is lossless. -/
theorem gray16ModelConvert_roundtrip (c : Color) :
    gray16ModelConvert c = Color.gray16 ((gray16ModelConvert c).asGray16) := by
  cases c <;> rfl

/-- `Gray16Model.Convert` is idempotent: converting an already-converted color
changes nothing. -/
theorem gray16ModelConvert_idem (c : Color) :
    gray16ModelConvert (gray16ModelConvert c) = gray16ModelConvert c := by
  cases c <;> rfl

/-- The in-bounds pixels of `convertToGray` are the `Gray16Model` conversions
of the source pixels. -/
theorem convertToGray_pix_inside (img : PixelGrid) (x y : Int)
    (h : img.bounds.inside x y) :
    (convertToGray img).pix x y = gray16ModelConvert (img.pix x y) := by
  unfold convertToGray
  dsimp only
  rw [if_pos h, ← gray16ModelConvert_roundtrip]

/-! ## Claim theorems -/

/-- C2: `convertToGray` returns a grid in 16-bit grayscale whose bounds are
identical to the input's bounds, where every coordinate in the source bounds
holds the `Gray16Model` (luminance-weighted) conversion of the source pixel at
that coordinate; it is a total pure function (no mutation of the input, no
failure mode, deterministic by construction). -/
theorem convertToGray_spec (img : PixelGrid) :
    (convertToGray img).bounds = img.bounds ∧
    (∀ x y : Int, ∃ v, (convertToGray img).pix x y = Color.gray16 v) ∧
    (∀ x y : Int, img.bounds.inside x y →
      (convertToGray img).pix x y = gray16ModelConvert (img.pix x y)) := by
  refine ⟨rfl, ?_, fun x y h => convertToGray_pix_inside img x y h⟩
  intro x y
  unfold convertToGray
  dsimp only
  by_cases h : img.bounds.inside x y
  · rw [if_pos h]; exact ⟨_, rfl⟩
  · rw [if_neg h]; exact ⟨0, rfl⟩

/-- A sample input grid (a uniform truecolor image on `[0,2) × [0,1)`). -/
def sampleGrid : PixelGrid :=
  { bounds := { minX := 0, minY := 0, maxX := 2, maxY := 1 }
    pix := fun _ _ => Color.generic 10000 20000 30000 65535 }

/-- Witness for C2 at a concrete grid and coordinate. -/
theorem convertToGray_spec_witness :
    (convertToGray sampleGrid).bounds = sampleGrid.bounds ∧
    (convertToGray sampleGrid).pix 0 0 =
      gray16ModelConvert (sampleGrid.pix 0 0) :=
  ⟨(convertToGray_spec sampleGrid).1,
   (convertToGray_spec sampleGrid).2.2 0 0 (by decide)⟩

/-- C3: `convertToGray` is idempotent — applying it twice yields the same
pixel grid (same bounds, same pixel at every coordinate) as applying it
once. -/
theorem convertToGray_idem (img : PixelGrid) :
    convertToGray (convertToGray img) = convertToGray img := by
  refine PixelGrid.ext rfl ?_
  funext x y
  show (convertToGray (convertToGray img)).pix x y = (convertToGray img).pix x y
  by_cases h : img.bounds.inside x y
  · have h2 : (convertToGray img).bounds.inside x y := h
    rw [convertToGray_pix_inside (convertToGray img) x y h2,
        convertToGray_pix_inside img x y h, gray16ModelConvert_idem]
  · have h2 : ¬ (convertToGray img).bounds.inside x y := h
    show (if (convertToGray img).bounds.inside x y then
        Color.gray16 ((gray16ModelConvert ((convertToGray img).pix x y)).asGray16)
      else Color.gray16 0) =
      (if img.bounds.inside x y then
        Color.gray16 ((gray16ModelConvert (img.pix x y)).asGray16)
      else Color.gray16 0)
    rw [if_neg h2, if_neg h]

/-- C9: in `convertToGray`, `Gray16Model.Convert` always returns a `Gray16`
value, so the ignored type-assertion-failure branch (which would store a black
pixel) is unreachable: asserting the result always recovers it exactly. -/
theorem gray16Model_assertion_total (c : Color) :
    ∃ y, gray16ModelConvert c = Color.gray16 y ∧
      Color.gray16 ((gray16ModelConvert c).asGray16) = gray16ModelConvert c :=
  ⟨(gray16ModelConvert c).asGray16, gray16ModelConvert_roundtrip c,
   (gray16ModelConvert_roundtrip c).symm⟩

/-- C5: for any content whose declared type is neither `image/jpeg` nor
`image/png`, `decodeImage` returns no image and a nil error, whatever the two
codecs would do. -/
theorem decodeImage_unsupported
    (jd pd : List Nat → Option PixelGrid × Option GoError)
    (content : MessageContentResponse)
    (h1 : content.contentType ≠ "image/jpeg")
    (h2 : content.contentType ≠ "image/png") :
    decodeImage jd pd content = (none, none) := by
  unfold decodeImage
  rw [if_neg h1, if_neg h2]

/-- Witness for C5 at a concrete unsupported content type. -/
theorem decodeImage_unsupported_witness :
    decodeImage (fun _ => (none, none)) (fun _ => (none, none))
      { contentType := "image/gif", content := [1, 2, 3] } = (none, none) :=
  decodeImage_unsupported _ _ _ (by decide) (by decide)

/-- C7: a text message is echoed verbatim; any message type other than text or
image gets the fixed unsupported-type text. -/
theorem handleTask_text_and_other (env : TaskEnv) (tok s tok' : String) :
    handleTask env { replyToken := tok, message := InMessage.text s } =
      TaskResult.reply (ReplyMessage.textMsg s) ∧
    handleTask env { replyToken := tok', message := InMessage.other } =
      TaskResult.reply (ReplyMessage.textMsg "未対応です。。。") :=
  ⟨rfl, rfl⟩

/-- C8: `writeImage` returns nil on the success path even when the deferred
`writer.Close` fails, and more generally its result never depends on the
close outcome — the close error is discarded on every path. -/
theorem writeImage_close_error_discarded (e : GoError) (st : StorageOutcome)
    (c : Option GoError) :
    writeImage { clientErr := none, encodeErr := none, writeErr := none,
                 closeErr := some e } = none ∧
    writeImage { st with closeErr := c } = writeImage st :=
  ⟨rfl, rfl⟩

/-- Composing a public URL: the code's left-to-right concatenation
`bucketURLBase + bucket + "/" + (prefix + id + ".jpg")` equals the flat form
`base + bucket + prefixWithSlash + id + ".jpg"`. -/
theorem url_compose (b pre spre m : String) (hp : "/" ++ pre = spre) :
    bucketURLBase ++ b ++ "/" ++ (pre ++ m ++ ".jpg") =
      "https://storage.googleapis.com/" ++ b ++ spre ++ m ++ ".jpg" := by
  subst hp
  simp only [bucketURLBase, String.append_assoc]

/-- C1: for an image event whose pipeline reaches the upload stage (content
fetched, decode returned an image and no error): if both uploads return nil,
the reply is an image message whose URLs are exactly
`https://storage.googleapis.com/<bucket>/images/<id>.jpg` and
`https://storage.googleapis.com/<bucket>/thumbnails/<id>.jpg`; if either
upload returns an error, the reply is the fixed failure text, regardless of
which upload failed. -/
theorem handleTask_upload_reply (env : TaskEnv) (tok mid : String)
    (content : MessageContentResponse) (img : PixelGrid)
    (hc : env.getContent mid = Except.ok content)
    (hd : decodeImage env.jpegDecode env.pngDecode content = (some img, none)) :
    (env.writeImage (convertToGray img) ("images/" ++ mid ++ ".jpg") = none ∧
     env.writeImage (thumbnailGrid env.resample 300 300 (convertToGray img))
       ("thumbnails/" ++ mid ++ ".jpg") = none →
     handleTask env { replyToken := tok, message := InMessage.image mid } =
       TaskResult.reply (ReplyMessage.imageMsg
         ("https://storage.googleapis.com/" ++ env.bucketName ++ "/images/" ++
           mid ++ ".jpg")
         ("https://storage.googleapis.com/" ++ env.bucketName ++ "/thumbnails/" ++
           mid ++ ".jpg"))) ∧
    (¬ (env.writeImage (convertToGray img) ("images/" ++ mid ++ ".jpg") = none ∧
        env.writeImage (thumbnailGrid env.resample 300 300 (convertToGray img))
          ("thumbnails/" ++ mid ++ ".jpg") = none) →
     handleTask env { replyToken := tok, message := InMessage.image mid } =
       TaskResult.reply (ReplyMessage.textMsg "失敗しました。。。")) := by
  constructor
  · intro hw
    simp only [handleTask, hc, hd]
    rw [if_pos hw, url_compose env.bucketName "images/" "/images/" mid rfl,
        url_compose env.bucketName "thumbnails/" "/thumbnails/" mid rfl]
  · intro hw
    simp only [handleTask, hc, hd]
    rw [if_neg hw]

/-- A task environment in which fetch always succeeds with a JPEG that decodes
to `sampleGrid` and both uploads succeed. -/
def uploadOkEnv : TaskEnv :=
  { bucketName := "b"
    getContent := fun _ => Except.ok { contentType := "image/jpeg", content := [7] }
    jpegDecode := fun _ => (some sampleGrid, none)
    pngDecode := fun _ => (none, none)
    resample := fun _ _ _ _ _ => Color.gray16 0
    writeImage := fun _ _ => none }

/-- Witness for C1: a concrete run in which both uploads succeed and the two
exact URLs come back. -/
theorem handleTask_upload_reply_witness :
    handleTask uploadOkEnv { replyToken := "t", message := InMessage.image "42" } =
      TaskResult.reply (ReplyMessage.imageMsg
        ("https://storage.googleapis.com/" ++ "b" ++ "/images/" ++ "42" ++ ".jpg")
        ("https://storage.googleapis.com/" ++ "b" ++ "/thumbnails/" ++ "42" ++ ".jpg")) :=
  (handleTask_upload_reply uploadOkEnv "t" "42" _ sampleGrid rfl rfl).1 ⟨rfl, rfl⟩

/-- An environment in which content fetch always fails and no upload can ever
fail. -/
def fetchFailEnv : TaskEnv :=
  { bucketName := "b"
    getContent := fun _ => Except.error "fetch failed"
    jpegDecode := fun _ => (none, none)
    pngDecode := fun _ => (none, none)
    resample := fun _ _ _ _ _ => Color.gray16 0
    writeImage := fun _ _ => none }

/-- Counterexample to C6 as stated over *every* processed event: under an
environment in which no upload can fail (`fetchFailEnv.writeImage` is
constantly `none`) and no decode ever succeeds, a *text* event whose text is
exactly the fixed failure string is echoed verbatim, so the reply sent is the
fixed-text failure message even though no decode ever succeeded and no upload
ever failed. -/
theorem handleTask_failure_text_cex :
    handleTask fetchFailEnv
      { replyToken := "t", message := InMessage.text "失敗しました。。。" } =
      TaskResult.reply (ReplyMessage.textMsg "失敗しました。。。") := rfl

/-- C6 (amended to image events, the only events with pipeline stages): for an
image event, a content-fetch error or a decode error makes the handler return
early with no reply at all, and the fixed-text failure reply is sent only
when the fetch and decode succeeded but at least one upload failed. -/
theorem handleTask_failure_only_after_decode (env : TaskEnv) (tok mid : String) :
    (∀ err, env.getContent mid = Except.error err →
      handleTask env { replyToken := tok, message := InMessage.image mid } =
        TaskResult.noReply) ∧
    (∀ content err, env.getContent mid = Except.ok content →
      (decodeImage env.jpegDecode env.pngDecode content).2 = some err →
      handleTask env { replyToken := tok, message := InMessage.image mid } =
        TaskResult.noReply) ∧
    (handleTask env { replyToken := tok, message := InMessage.image mid } =
        TaskResult.reply (ReplyMessage.textMsg "失敗しました。。。") →
      ∃ content img,
        env.getContent mid = Except.ok content ∧
        decodeImage env.jpegDecode env.pngDecode content = (some img, none) ∧
        ¬ (env.writeImage (convertToGray img) ("images/" ++ mid ++ ".jpg") = none ∧
           env.writeImage (thumbnailGrid env.resample 300 300 (convertToGray img))
             ("thumbnails/" ++ mid ++ ".jpg") = none)) := by
  refine ⟨?_, ?_, ?_⟩
  · intro err h
    simp only [handleTask, h]
  · intro content err hc hsnd
    simp only [handleTask, hc]
    rcases hd : decodeImage env.jpegDecode env.pngDecode content with ⟨a, b⟩
    rw [hd] at hsnd
    simp only at hsnd
    subst hsnd
    cases a <;> rfl
  · intro h
    rcases hg : env.getContent mid with err | content
    · simp [handleTask, hg] at h
    · rcases hd : decodeImage env.jpegDecode env.pngDecode content with ⟨a, b⟩
      cases b with
      | some err => cases a <;> simp [handleTask, hg, hd] at h
      | none =>
        cases a with
        | none => simp [handleTask, hg, hd] at h
        | some img =>
          by_cases hw :
            env.writeImage (convertToGray img) ("images/" ++ mid ++ ".jpg") = none ∧
            env.writeImage (thumbnailGrid env.resample 300 300 (convertToGray img))
              ("thumbnails/" ++ mid ++ ".jpg") = none
          · simp [handleTask, hg, hd, hw] at h
          · exact ⟨content, img, rfl, hd, hw⟩

/-- Witness for the amended C6: a concrete image event whose content fetch
fails is dropped with no reply. -/
theorem handleTask_failure_only_after_decode_witness :
    handleTask fetchFailEnv { replyToken := "t", message := InMessage.image "9" } =
      TaskResult.noReply :=
  (handleTask_failure_only_after_decode fetchFailEnv "t" "9").1 "fetch failed" rfl

/-- C10: in `handleCallback`, if JSON marshalling fails for any event of the
batch, the handler returns before `taskqueue.AddMulti` and no task at all is
enqueued — not even for events marshalled successfully before the failing
one. -/
theorem handleCallback_abort_on_marshal_error
    (marshal : Event → Except GoError (List Nat)) (b64 : List Nat → String)
    (evs : List Event) (e : Event)
    (hmem : e ∈ evs) (herr : ∃ s, marshal e = Except.error s) :
    handleCallback marshal b64 evs = none := by
  obtain ⟨s, hs⟩ := herr
  induction evs with
  | nil => cases hmem
  | cons hd tl ih =>
    rcases List.mem_cons.mp hmem with h | h
    · subst h
      unfold handleCallback
      rw [hs]
    · unfold handleCallback
      cases hh : marshal hd with
      | error _ => rfl
      | ok j => rw [ih h]; rfl

/-- Witness for C10: a two-event batch whose second event fails to marshal
enqueues nothing. -/
theorem handleCallback_abort_witness :
    handleCallback
      (fun ev => match ev.message with
        | InMessage.other => Except.error "marshal failed"
        | _ => Except.ok [1])
      (fun _ => "d")
      [{ replyToken := "t1", message := InMessage.text "hello" },
       { replyToken := "t2", message := InMessage.other }] = none :=
  handleCallback_abort_on_marshal_error _ _ _
    { replyToken := "t2", message := InMessage.other }
    (List.mem_cons_of_mem _ (List.mem_singleton_self _)) ⟨"marshal failed", rfl⟩

/-- The Go clamp `if x < 1 { x = 1 }` is `max x 1`. -/
theorem if_lt_one_eq_max (x : Nat) : (if x < 1 then 1 else x) = max x 1 := by
  rcases Nat.eq_zero_or_pos x with h | h
  · simp [h]
  · rw [if_neg (by omega)]
    omega

/-- Case analysis of the thumbnail dimension policy for a 300×300 box:
identity, width clamp only, width then height clamp, height clamp only. -/
theorem thumbnailDims_cases (w h : Nat) :
    (w ≤ 300 ∧ h ≤ 300 ∧ thumbnailDims 300 300 w h = (w, h)) ∨
    (300 < w ∧ max (h * 300 / w) 1 ≤ 300 ∧
      thumbnailDims 300 300 w h = (300, max (h * 300 / w) 1)) ∨
    (300 < w ∧ 300 < h * 300 / w ∧
      thumbnailDims 300 300 w h = (max (300 * 300 / (h * 300 / w)) 1, 300)) ∨
    (w ≤ 300 ∧ 300 < h ∧
      thumbnailDims 300 300 w h = (max (w * 300 / h) 1, 300)) := by
  unfold thumbnailDims thumbStepW thumbStepH
  by_cases h0 : 300 ≥ w ∧ 300 ≥ h
  · exact Or.inl ⟨h0.1, h0.2, by rw [if_pos h0]⟩
  · rw [if_neg h0]
    by_cases hw : w > 300
    · rw [if_pos hw]
      rw [if_lt_one_eq_max]
      by_cases hy : max (h * 300 / w) 1 > 300
      · refine Or.inr (Or.inr (Or.inl ⟨hw, by omega, ?_⟩))
        rw [if_pos hy]
        have hyq : max (h * 300 / w) 1 = h * 300 / w := by omega
        rw [if_lt_one_eq_max, hyq]
      · refine Or.inr (Or.inl ⟨hw, by omega, ?_⟩)
        rw [if_neg hy]
    · have hh : 300 < h := by omega
      rw [if_neg hw]
      refine Or.inr (Or.inr (Or.inr ⟨by omega, hh, ?_⟩))
      rw [if_pos (by omega : (w, h).2 > 300)]
      rw [if_lt_one_eq_max]

/-- Rescaling a side of at most 300 by a clamped-at-301 divisor keeps it
under 300. -/
theorem div_clamp_le_299 (a b : Nat) (ha : a ≤ 300) (hb : 301 ≤ b) :
    a * 300 / b ≤ 299 := by
  calc a * 300 / b ≤ 90000 / b := Nat.div_le_div_right (by nlinarith)
    _ ≤ 90000 / 301 := Nat.div_le_div_left hb (by omega)
    _ = 299 := by decide

/-- Neither output dimension of the thumbnail policy exceeds 300. -/
theorem thumbnailDims_le (w h : Nat) :
    (thumbnailDims 300 300 w h).1 ≤ 300 ∧ (thumbnailDims 300 300 w h).2 ≤ 300 := by
  rcases thumbnailDims_cases w h with ⟨h1, h2, he⟩ | ⟨h1, h2, he⟩ | ⟨h1, h2, he⟩ |
    ⟨h1, h2, he⟩ <;> rw [he]
  · exact ⟨h1, h2⟩
  · exact ⟨le_refl 300, h2⟩
  · have := div_clamp_le_299 300 (h * 300 / w) (le_refl 300) (by omega)
    exact ⟨by omega, le_refl 300⟩
  · have := div_clamp_le_299 w h h1 (by omega)
    exact ⟨by omega, le_refl 300⟩

/-- The thumbnail policy sends a 600×300 input to exactly 300×150. -/
theorem thumbnailDims_600_300 : thumbnailDims 300 300 600 300 = (300, 150) := by
  decide

/-- The thumbnail policy preserves the aspect ratio within rounding tolerance:
the cross products `w' * h` and `h' * w` differ by at most `w + h` (one
rounding unit of the floor divisions involved). -/
theorem thumbnailDims_aspect (w h : Nat) (hw : 0 < w) (hh : 0 < h) :
    (thumbnailDims 300 300 w h).1 * h ≤ (thumbnailDims 300 300 w h).2 * w + (w + h) ∧
    (thumbnailDims 300 300 w h).2 * w ≤ (thumbnailDims 300 300 w h).1 * h + (w + h) := by
  rcases thumbnailDims_cases w h with ⟨h1, h2, he⟩ | ⟨h1, h2, he⟩ | ⟨h1, h2, he⟩ |
    ⟨h1, h2, he⟩ <;> rw [he] <;> dsimp only
  · have hc : w * h = h * w := Nat.mul_comm w h
    omega
  · have e1 := Nat.div_add_mod (h * 300) w
    have hr : h * 300 % w < w := Nat.mod_lt _ (by omega)
    generalize hq0 : h * 300 / w = q0 at h2 e1 ⊢
    generalize hrr : h * 300 % w = r at e1 hr
    rcases Nat.eq_zero_or_pos q0 with hz | hz
    · subst hz
      have hm : max 0 1 = 1 := by omega
      rw [hm]
      omega
    · have hm : max q0 1 = q0 := by omega
      rw [hm]
      have hc : w * q0 = q0 * w := Nat.mul_comm w q0
      omega
  · have e1 := Nat.div_add_mod (h * 300) w
    have hr : h * 300 % w < w := Nat.mod_lt _ (by omega)
    generalize hq0 : h * 300 / w = q0 at h2 e1 ⊢
    generalize hrr : h * 300 % w = r at e1 hr
    have e2 := Nat.div_add_mod (300 * 300) q0
    have hr2 : 300 * 300 % q0 < q0 := Nat.mod_lt _ (by omega)
    generalize hs0 : 300 * 300 / q0 = s0 at e2 ⊢
    generalize hrr2 : 300 * 300 % q0 = r2 at e2 hr2
    have e1' : w * q0 + r = 300 * h := by omega
    have e2' : q0 * s0 + r2 = 90000 := by omega
    have hq : 301 ≤ q0 := by omega
    rcases Nat.eq_zero_or_pos s0 with hz | hz
    · subst hz
      have hm : max 0 1 = 1 := by omega
      rw [hm]
      have hlt : 90000 < q0 := by omega
      have k1 : 90001 * w ≤ w * q0 := by nlinarith
      omega
    · have hm : max s0 1 = s0 := by omega
      rw [hm]
      clear he hq0 hrr hs0 hrr2 e1 e2 h2
      have hs299 : s0 ≤ 299 := by nlinarith
      have k1 : 300 * (s0 * h) ≤ 90299 * w := by nlinarith
      have k2 : 90000 * w < 300 * h * (s0 + 1) := by nlinarith
      constructor
      · nlinarith
      · nlinarith
  · have e1 := Nat.div_add_mod (w * 300) h
    have hr : w * 300 % h < h := Nat.mod_lt _ (by omega)
    generalize hs : w * 300 / h = s at e1 ⊢
    generalize hrr : w * 300 % h = r at e1 hr
    rcases Nat.eq_zero_or_pos s with hz | hz
    · subst hz
      have hm : max 0 1 = 1 := by omega
      rw [hm]
      omega
    · have hm : max s 1 = s := by omega
      rw [hm]
      have hc : h * s = s * h := Nat.mul_comm h s
      omega

/-- The dimensions of `thumbnailGrid` (in either branch) are those of
`thumbnailDims` on the input's dimensions. -/
theorem thumbnailGrid_dims (f : Nat → Nat → PixelGrid → Int → Int → Color)
    (img : PixelGrid) :
    (thumbnailGrid f 300 300 img).bounds.dx.toNat =
      (thumbnailDims 300 300 img.bounds.dx.toNat img.bounds.dy.toNat).1 ∧
    (thumbnailGrid f 300 300 img).bounds.dy.toNat =
      (thumbnailDims 300 300 img.bounds.dx.toNat img.bounds.dy.toNat).2 := by
  simp only [thumbnailGrid]
  by_cases h0 : 300 ≥ img.bounds.dx.toNat ∧ 300 ≥ img.bounds.dy.toNat
  · rw [if_pos h0]
    unfold thumbnailDims
    rw [if_pos h0]
    exact ⟨rfl, rfl⟩
  · rw [if_neg h0]
    constructor <;> simp only [Rect.dx, Rect.dy] <;> omega

/-- C4: the thumbnail produced by the thumbnail generator never exceeds 300
pixels in either dimension; it preserves the input's aspect ratio within
rounding tolerance (the cross products of the dimensions differ by at most
`w + h`, one rounding unit of the integer divisions); and a 600×300 input
yields exactly a 300×150 thumbnail. -/
theorem thumbnail_spec :
    (∀ (f : Nat → Nat → PixelGrid → Int → Int → Color) (img : PixelGrid),
      (thumbnailGrid f 300 300 img).bounds.dx.toNat ≤ 300 ∧
      (thumbnailGrid f 300 300 img).bounds.dy.toNat ≤ 300) ∧
    (∀ (f : Nat → Nat → PixelGrid → Int → Int → Color) (img : PixelGrid),
      0 < img.bounds.dx.toNat → 0 < img.bounds.dy.toNat →
      (thumbnailGrid f 300 300 img).bounds.dx.toNat * img.bounds.dy.toNat ≤
        (thumbnailGrid f 300 300 img).bounds.dy.toNat * img.bounds.dx.toNat +
          (img.bounds.dx.toNat + img.bounds.dy.toNat) ∧
      (thumbnailGrid f 300 300 img).bounds.dy.toNat * img.bounds.dx.toNat ≤
        (thumbnailGrid f 300 300 img).bounds.dx.toNat * img.bounds.dy.toNat +
          (img.bounds.dx.toNat + img.bounds.dy.toNat)) ∧
    (∀ (f : Nat → Nat → PixelGrid → Int → Int → Color) (img : PixelGrid),
      img.bounds.dx.toNat = 600 → img.bounds.dy.toNat = 300 →
      (thumbnailGrid f 300 300 img).bounds.dx.toNat = 300 ∧
      (thumbnailGrid f 300 300 img).bounds.dy.toNat = 150) := by
  refine ⟨?_, ?_, ?_⟩
  · intro f img
    rw [(thumbnailGrid_dims f img).1, (thumbnailGrid_dims f img).2]
    exact thumbnailDims_le _ _
  · intro f img hx hy
    rw [(thumbnailGrid_dims f img).1, (thumbnailGrid_dims f img).2]
    exact thumbnailDims_aspect _ _ hx hy
  · intro f img hx hy
    rw [(thumbnailGrid_dims f img).1, (thumbnailGrid_dims f img).2, hx, hy,
        thumbnailDims_600_300]
    exact ⟨rfl, rfl⟩

/-- A 600×300 sample grid. -/
def sampleGrid600 : PixelGrid :=
  { bounds := { minX := 0, minY := 0, maxX := 600, maxY := 300 }
    pix := fun _ _ => Color.generic 0 0 0 65535 }

/-- Witness for C4: the 600×300 sample thumbnails to exactly 300×150. -/
theorem thumbnail_spec_witness :
    (thumbnailGrid (fun _ _ _ _ _ => Color.gray16 0) 300 300 sampleGrid600).bounds.dx.toNat = 300 ∧
    (thumbnailGrid (fun _ _ _ _ _ => Color.gray16 0) 300 300 sampleGrid600).bounds.dy.toNat = 150 :=
  thumbnail_spec.2.2 (fun _ _ _ _ _ => Color.gray16 0) sampleGrid600 (by decide) (by decide)
